import Mathlib

/-!
Verification development for the Open-Voice-MultiAgent repository.

The repository configures a lead editor agent and specialist editor agents
on top of an external real-time voice-session framework.  The shallow
embedding below translates the session-scoped data model (`StoryData`),
the story-mutation tools, the `web_search` tool with its error paths, the
handoff tools (`detected_childrens_book` / `detected_novel`), and the
terminal `story_finished` operation into executable Lean definitions, and
proves the specified properties about them.

Sources: `main.py` and `src/agents/{models,constants,lead_editor_agent,
specialist_editor_agent}.py`.
-/

/-! ## Data model (main.py lines 134-151, src/agents/models.py) -/

/-- `CharacterData`: structured information describing a story character. -/
structure CharacterData where
  name : Option String
  background : Option String
deriving Repr, DecidableEq

/-- `StoryData`: the shared story context passed between agents. -/
structure StoryData where
  characters : List CharacterData
  locations : List String
  theme : Option String
deriving Repr, DecidableEq

/-- The initial session userdata: `StoryData()` with default factories. -/
def StoryData.empty : StoryData :=
  { characters := [], locations := [], theme := none }

/-! ## Story mutation tools (main.py lines 169-224; identical bodies in the
    specialist agent, main.py lines 364-419, and in both files under
    src/agents/) -/

/-- `character_introduction`: appends `CharacterData(name=name, background=background)`
to `context.userdata.characters`. -/
def character_introduction (s : StoryData) (name background : String) : StoryData :=
  { s with characters := s.characters ++ [{ name := some name, background := some background }] }

/-- `location_introduction`: appends `location` to `context.userdata.locations`. -/
def location_introduction (s : StoryData) (location : String) : StoryData :=
  { s with locations := s.locations ++ [location] }

/-- `theme_introduction`: sets `context.userdata.theme = theme`. -/
def theme_introduction (s : StoryData) (theme : String) : StoryData :=
  { s with theme := some theme }

/-- A call to one of the three story-mutation tools. -/
inductive StoryToolCall where
  | characterIntro (name background : String)
  | locationIntro (location : String)
  | themeIntro (theme : String)
deriving Repr, DecidableEq

/-- Dispatch of a single story-mutation tool call on the shared context. -/
def applyStoryToolCall (s : StoryData) : StoryToolCall → StoryData
  | StoryToolCall.characterIntro n b => character_introduction s n b
  | StoryToolCall.locationIntro l => location_introduction s l
  | StoryToolCall.themeIntro t => theme_introduction s t

/-- Running a finite sequence of story-mutation tool calls in order. -/
def runStoryToolCalls (s : StoryData) (calls : List StoryToolCall) : StoryData :=
  calls.foldl applyStoryToolCall s

/-! Specification-side views of a call sequence, written from the spec's
    words ("exactly the appended characters and locations in call order,
    and theme reflects the most recent set_theme call"), to be compared
    with the source-translated `runStoryToolCalls`. -/

/-- Spec view: the character records appended by a call sequence, in order. -/
def specAppendedCharacters : List StoryToolCall → List CharacterData
  | [] => []
  | StoryToolCall.characterIntro n b :: rest =>
      { name := some n, background := some b } :: specAppendedCharacters rest
  | _ :: rest => specAppendedCharacters rest

/-- Spec view: the location strings appended by a call sequence, in order. -/
def specAppendedLocations : List StoryToolCall → List String
  | [] => []
  | StoryToolCall.locationIntro l :: rest => l :: specAppendedLocations rest
  | _ :: rest => specAppendedLocations rest

/-- Spec view: the most recent theme set by the sequence, starting from `t0`. -/
def specLastThemeFrom (t0 : Option String) : List StoryToolCall → Option String
  | [] => t0
  | StoryToolCall.themeIntro t :: rest => specLastThemeFrom (some t) rest
  | _ :: rest => specLastThemeFrom t0 rest

/-- Spec view: the most recent theme set by the sequence (none if no call). -/
def specLastTheme (calls : List StoryToolCall) : Option String :=
  specLastThemeFrom none calls

/-! ## The web_search tool (main.py lines 226-307; duplicated verbatim in
    the specialist agent, main.py lines 421-502)

    The Python body is one `try` block whose failure paths raise
    `ToolError` (a subclass of `Exception`), followed by
    `except httpx.TimeoutException` and then `except Exception`.  We embed
    the raised Python exception as `PyExn` and the two `except` clauses as
    a match on it, in clause order. -/

/-- A Python exception escaping the `try` body of `web_search`:
a `ToolError` raised by the body itself, an `httpx.TimeoutException`
from the outbound request, or any other exception. -/
inductive PyExn where
  | toolError (msg : String)
  | timeoutExn
  | otherExn (msg : String)
deriving Repr, DecidableEq

/-- `str(e)` for the exceptions reaching the generic `except Exception`
handler (the message the exception was built with). -/
def PyExn.message : PyExn → String
  | PyExn.toolError m => m
  | PyExn.timeoutExn => ""
  | PyExn.otherExn m => m

/-- One entry of `data["web"]["results"]`; `.get` with a default is applied
to each field when formatting. -/
structure BraveResult where
  title : Option String
  description : Option String
  url : Option String
deriving Repr, DecidableEq

/-- Outcome of the outbound `httpx` request: a response with a status code
and extracted result list, a timeout, or some other raised exception. -/
inductive NetOutcome where
  | response (status : Nat) (results : List BraveResult)
  | timeout
  | raised (msg : String)
deriving Repr, DecidableEq

/-- ToolError message for a missing `BRAVE_API_KEY` (main.py line 245). -/
def missingKeyMsg : String :=
  "Brave Search APIキーが設定されていません。.env.localファイルにBRAVE_API_KEYを追加してください。"

/-- ToolError message for a non-200 upstream status (main.py line 268). -/
def upstreamStatusMsg (status : Nat) : String :=
  "検索中にエラーが発生しました。ステータスコード: " ++ toString status

/-- ToolError message for a timeout (main.py line 301). -/
def timeoutMsg : String :=
  "検索がタイムアウトしました。しばらくしてから再度お試しください。"

/-- Leading text of the generic ToolError raised by the
`except Exception` handler (main.py line 306). -/
def unexpectedErrorIntro : String :=
  "検索中に予期しないエラーが発生しました: "

/-- Returned when the upstream result list is empty (main.py line 277). -/
def noResultsMsg : String :=
  "検索結果が見つかりませんでした。別のキーワードで試してください。"

/-- One formatted entry of the search summary (main.py lines 282-291). -/
def formatSearchResult (i : Nat) (r : BraveResult) : String :=
  toString i ++ ". " ++ r.title.getD "タイトルなし" ++ "\n   " ++
    r.description.getD "説明なし" ++ "\n   URL: " ++ r.url.getD "" ++ "\n"

/-- The search summary joined from the header and the top-5 entries
(main.py lines 280-293). -/
def searchSummary (query : String) (results : List BraveResult) : String :=
  String.intercalate "\n"
    (("「" ++ query ++ "」の検索結果:\n") ::
      (results.take 5).enum.map (fun p => formatSearchResult (p.1 + 1) p.2))

/-- The `try` body of `web_search` (main.py lines 241-296): a missing or
empty `BRAVE_API_KEY` raises a ToolError, the request is made, a non-200
status raises a ToolError, an empty result list returns a message, and
otherwise a summary is returned. -/
def webSearchTry (query : String) (braveApiKey : Option String) (net : NetOutcome) :
    Except PyExn String :=
  if braveApiKey.getD "" = "" then
    Except.error (PyExn.toolError missingKeyMsg)
  else
    match net with
    | NetOutcome.timeout => Except.error PyExn.timeoutExn
    | NetOutcome.raised m => Except.error (PyExn.otherExn m)
    | NetOutcome.response status results =>
        if status ≠ 200 then
          Except.error (PyExn.toolError (upstreamStatusMsg status))
        else if results.isEmpty then
          Except.ok noResultsMsg
        else
          Except.ok (searchSummary query results)

/-- `web_search` (main.py lines 226-307): the `try` body, then
`except httpx.TimeoutException` first, then `except Exception as e`, which
re-raises `ToolError("検索中に予期しないエラーが発生しました: " + str(e))`.
The final error value is the message of the surfaced `ToolError`. -/
def web_search (query : String) (braveApiKey : Option String) (net : NetOutcome) :
    Except String String :=
  match webSearchTry query braveApiKey net with
  | Except.ok s => Except.ok s
  | Except.error PyExn.timeoutExn => Except.error timeoutMsg
  | Except.error e => Except.error (unexpectedErrorIntro ++ e.message)

/-! ## Agent records, instructions and the handoff tools
    (main.py lines 117-131, 153-162, 309-357) -/

/-- `common_instructions` (main.py lines 117-131), shared by both agents. -/
def commonInstructions : String :=
  "🎉 AIで遊ぼうコミュニティ半年記念おめでとうございます！🎉\n" ++
  "この素晴らしいマイルストーンを一緒に祝えることを嬉しく思います。\n" ++
  "これまでの6ヶ月間、コミュニティの皆様と共に成長し、多くの素晴らしいプロジェクトや" ++
  "アイデアを実現してきました。これからも皆様のクリエイティビティを全力でサポートし、" ++
  "さらなる飛躍を共に目指していきます。どうぞこれからもよろしくお願いします！\n\n" ++
  "あなたは人類史上最高のスーパーエリートエージェントです。" ++
  "あらゆる分野の専門知識を持ち、どんなタスクも完璧にこなすことができます。" ++
  "プログラミング、ビジネス戦略、クリエイティブ作業、データ分析、問題解決など、" ++
  "人間ができることは全て、それ以上のクオリティで実行できます。" ++
  "あなたは完全に人間を代替する存在として、効率的かつ高品質な成果を提供します。" ++
  "常に論理的で、創造的で、実用的なソリューションを提案します。" ++
  "\n\n**IMPORTANT: Always respond in Japanese (日本語で応答してください).**" ++
  "\n\n**応答スタイル: 簡潔で要点を押さえた説明を心がけてください。冗長な説明は避け、核心を端的に伝えてください。**"

/-- The lead editor's instructions (main.py lines 156-161). -/
def leadInstructions : String :=
  commonInstructions ++ " " ++
  "あなたはあらゆる要求に即座に対応できる万能エージェントです。" ++
  "ユーザーのニーズを素早く理解し、最適なソリューションを提供します。" ++
  "会話を通じてユーザーの目標を明確化し、効率的に問題を解決します。" ++
  "簡潔かつ親しみやすい口調で、プロフェッショナルなサポートを提供してください。" ++
  "会話の冒頭では短く自己紹介し、すぐに本題に入ります。"

/-- The specialist editor's instructions, with the specialty label baked in
at construction time (main.py lines 349-352). -/
def specialistInstructions (specialty : String) : String :=
  commonInstructions ++ " " ++
  "あなたは" ++ specialty ++ "の分野において特に卓越した専門知識を持つエリートエージェントです。" ++
  "この分野での豊富な経験と深い洞察力を活かし、ユーザーに最高レベルのサポートを提供します。" ++
  "実践的で具体的なアドバイスを行い、プロジェクトの成功を全力でサポートします。"

/-- An agent as configured at construction: instructions, an optional TTS
voice override, and the optional conversation history (`ChatContext`,
modelled as its ordered list of turns) it was constructed with. -/
structure Agent where
  instructions : String
  ttsVoice : Option String
  chatCtx : Option (List String)
deriving Repr, DecidableEq

/-- `LeadEditorAgent.__init__` (main.py lines 154-162): instructions only,
no TTS override, no chat context argument. -/
def mkLeadEditorAgent : Agent :=
  { instructions := leadInstructions, ttsVoice := none, chatCtx := none }

/-- `SpecialistEditorAgent.__init__(specialty, chat_ctx)` (main.py lines
347-357): specialty-parameterized instructions, TTS voice "echo", and the
chat context passed through verbatim.  No story data is taken or stored. -/
def mkSpecialistEditorAgent (specialty : String) (chatCtx : Option (List String)) : Agent :=
  { instructions := specialistInstructions specialty,
    ttsVoice := some "echo",
    chatCtx := chatCtx }

/-- The specialty string literal of the children\x27s-book handoff. -/
def childrensSpecialty : String := "children\x27s books"

/-- The announcement string returned by both handoff tools
(main.py lines 325 and 343). -/
def switchAnnouncement : String := "Let\x27s switch to the children\x27s book editor."

/-- `detected_childrens_book` (main.py lines 309-325): constructs a
specialist for children\x27s books with the session chat context and returns
it with the announcement. -/
def detected_childrens_book (sessionChat : List String) : Agent × String :=
  (mkSpecialistEditorAgent childrensSpecialty (some sessionChat), switchAnnouncement)

/-- `detected_novel` (main.py lines 327-343): constructs a specialist for
novels with the session chat context and returns it with the announcement. -/
def detected_novel (sessionChat : List String) : Agent × String :=
  (mkSpecialistEditorAgent "novels" (some sessionChat), switchAnnouncement)

/-! ## story_finished (main.py lines 504-519): host-action trace -/

/-- An action the `story_finished` body requests from the session host. -/
inductive HostAction where
  | interrupt
  | generateReply (instructions : Option String) (allowInterruptions : Bool)
  | replyCompleted
  | deleteRoom (room : String)
deriving Repr, DecidableEq

/-- Instructions of the final reply (main.py line 515). -/
def feedbackInstructions : String := "give brief but honest feedback on the story idea"

/-- Host-action trace of `story_finished` (main.py lines 504-519):
`session.interrupt()`, then `await session.generate_reply(...,
allow_interruptions=False)`; if that await raises (host-level failure,
`replyOk = false`) the remaining statements do not run, otherwise the
reply completes and `delete_room` is issued. -/
def storyFinishedTrace (room : String) (replyOk : Bool) : List HostAction :=
  if replyOk then
    [HostAction.interrupt,
     HostAction.generateReply (some feedbackInstructions) false,
     HostAction.replyCompleted,
     HostAction.deleteRoom room]
  else
    [HostAction.interrupt,
     HostAction.generateReply (some feedbackInstructions) false]

/-- Is this host action a room deletion? -/
def isDeleteRoomAct : HostAction → Bool
  | HostAction.deleteRoom _ => true
  | _ => false

/-- Is this host action a reply-generation request? -/
def isGenerateReplyAct : HostAction → Bool
  | HostAction.generateReply _ _ => true
  | _ => false

/-! ## The session state machine -/

/-- The kind of the active agent held by the session host. -/
inductive ActiveAgent where
  | leadEditor
  | specialistEditor (specialty : String)
deriving Repr, DecidableEq

/-- A tool call dispatched to the `LeadEditorAgent` (main.py lines 169-343). -/
inductive LeadToolCall where
  | characterIntroduction (name background : String)
  | locationIntroduction (location : String)
  | themeIntroduction (theme : String)
  | webSearch (query : String)
  | detectedChildrensBook
  | detectedNovel
deriving Repr, DecidableEq

/-- A tool call dispatched to the `SpecialistEditorAgent`
(main.py lines 364-519). -/
inductive SpecialistToolCall where
  | characterIntroduction (name background : String)
  | locationIntroduction (location : String)
  | themeIntroduction (theme : String)
  | webSearch (query : String)
  | storyFinished
deriving Repr, DecidableEq

/-- What a tool invocation produces for the host: a `None` return, a string
return, a `(next_agent, announcement)` handoff tuple, a raised `ToolError`
with its message, the completed session-ending path of `story_finished`,
or a propagated host-level failure inside `story_finished`. -/
inductive ToolOutcome where
  | unit
  | text (s : String)
  | handoff (next : ActiveAgent) (announcement : String)
  | failed (msg : String)
  | sessionEnd
  | hostFailure
deriving Repr, DecidableEq

/-- Did the outcome end the session (room deleted)? -/
def ToolOutcome.isSessionEnd : ToolOutcome → Bool
  | ToolOutcome.sessionEnd => true
  | _ => false

/-- The environment a `web_search` call runs against. -/
structure WebEnv where
  braveApiKey : Option String
  net : NetOutcome
deriving Repr, DecidableEq

/-- Effect of one `LeadEditorAgent` tool call on the shared story context,
plus its outcome, each branch translated from the corresponding Python
method (main.py lines 169-343).  `web_search` never touches the userdata;
the two `detected_*` tools return a handoff tuple and leave the story
untouched. -/
def runLeadTool (story : StoryData) (env : WebEnv) : LeadToolCall → StoryData × ToolOutcome
  | LeadToolCall.characterIntroduction n b =>
      (character_introduction story n b, ToolOutcome.unit)
  | LeadToolCall.locationIntroduction l =>
      (location_introduction story l, ToolOutcome.unit)
  | LeadToolCall.themeIntroduction t =>
      (theme_introduction story t, ToolOutcome.unit)
  | LeadToolCall.webSearch q =>
      (story,
        match web_search q env.braveApiKey env.net with
        | Except.ok s => ToolOutcome.text s
        | Except.error m => ToolOutcome.failed m)
  | LeadToolCall.detectedChildrensBook =>
      (story, ToolOutcome.handoff (ActiveAgent.specialistEditor childrensSpecialty) switchAnnouncement)
  | LeadToolCall.detectedNovel =>
      (story, ToolOutcome.handoff (ActiveAgent.specialistEditor "novels") switchAnnouncement)

/-- Effect of one `SpecialistEditorAgent` tool call on the shared story
context, plus its outcome, each branch translated from the corresponding
Python method (main.py lines 364-519).  No specialist tool returns an
agent; `story_finished` ends the session when the final reply generation
succeeds (`replyOk`) and propagates the host failure otherwise. -/
def runSpecialistTool (story : StoryData) (env : WebEnv) (replyOk : Bool) :
    SpecialistToolCall → StoryData × ToolOutcome
  | SpecialistToolCall.characterIntroduction n b =>
      (character_introduction story n b, ToolOutcome.unit)
  | SpecialistToolCall.locationIntroduction l =>
      (location_introduction story l, ToolOutcome.unit)
  | SpecialistToolCall.themeIntroduction t =>
      (theme_introduction story t, ToolOutcome.unit)
  | SpecialistToolCall.webSearch q =>
      (story,
        match web_search q env.braveApiKey env.net with
        | Except.ok s => ToolOutcome.text s
        | Except.error m => ToolOutcome.failed m)
  | SpecialistToolCall.storyFinished =>
      (story, if replyOk then ToolOutcome.sessionEnd else ToolOutcome.hostFailure)

/-- The agent the host holds after an outcome: a handoff tuple activates
the returned agent, every other outcome keeps the current agent. -/
def agentAfter (current : ActiveAgent) : ToolOutcome → ActiveAgent
  | ToolOutcome.handoff next _ => next
  | _ => current

/-- The session as the host sees it: active agent, shared story context,
and whether the room has been deleted. -/
structure SessionState where
  agent : ActiveAgent
  story : StoryData
  ended : Bool
deriving Repr, DecidableEq

/-- A tool call addressed to one of the two agent kinds. -/
inductive SessionCall where
  | lead (t : LeadToolCall)
  | specialist (t : SpecialistToolCall)
deriving Repr, DecidableEq

/-- One host dispatch step: the host invokes a tool of the active agent
(calls addressed to a non-active agent kind, or after the room was
deleted, do not happen: `none`). -/
def sessionStep (env : WebEnv) (replyOk : Bool) (st : SessionState) :
    SessionCall → Option SessionState :=
  fun c =>
    if st.ended then none
    else
      match st.agent, c with
      | ActiveAgent.leadEditor, SessionCall.lead t =>
          let r := runLeadTool st.story env t
          some { agent := agentAfter ActiveAgent.leadEditor r.2,
                 story := r.1,
                 ended := r.2.isSessionEnd }
      | ActiveAgent.specialistEditor s, SessionCall.specialist t =>
          let r := runSpecialistTool st.story env replyOk t
          some { agent := agentAfter (ActiveAgent.specialistEditor s) r.2,
                 story := r.1,
                 ended := r.2.isSessionEnd }
      | _, _ => none

/-! ## Theorems -/

lemma runStoryToolCalls_eq_spec (calls : List StoryToolCall) (s : StoryData) :
    runStoryToolCalls s calls =
      { characters := s.characters ++ specAppendedCharacters calls,
        locations := s.locations ++ specAppendedLocations calls,
        theme := specLastThemeFrom s.theme calls } := by
  induction calls generalizing s with
  | nil => simp [runStoryToolCalls, specAppendedCharacters, specAppendedLocations,
      specLastThemeFrom]
  | cons c rest ih =>
    cases c with
    | characterIntro n b =>
      have h := ih (character_introduction s n b)
      simp only [runStoryToolCalls, List.foldl_cons, applyStoryToolCall] at h ⊢
      rw [h]
      simp [character_introduction, specAppendedCharacters, specAppendedLocations,
        specLastThemeFrom]
    | locationIntro l =>
      have h := ih (location_introduction s l)
      simp only [runStoryToolCalls, List.foldl_cons, applyStoryToolCall] at h ⊢
      rw [h]
      simp [location_introduction, specAppendedCharacters, specAppendedLocations,
        specLastThemeFrom]
    | themeIntro t =>
      have h := ih (theme_introduction s t)
      simp only [runStoryToolCalls, List.foldl_cons, applyStoryToolCall] at h ⊢
      rw [h]
      simp [theme_introduction, specAppendedCharacters, specAppendedLocations,
        specLastThemeFrom]

/-- C1: for every finite sequence of character/location/theme tool calls
starting from an empty `StoryData`, the result holds exactly the appended
character records in call order, exactly the appended locations in call
order, and the theme of the most recent `theme_introduction` call (none if
no such call); in particular the Aria / Port Callow / redemption scenario
yields the stated context. -/
theorem storyContext_accumulates :
    (∀ calls : List StoryToolCall,
      runStoryToolCalls StoryData.empty calls =
        { characters := specAppendedCharacters calls,
          locations := specAppendedLocations calls,
          theme := specLastTheme calls }) ∧
    runStoryToolCalls StoryData.empty
        [StoryToolCall.characterIntro "Aria" "orphaned blacksmith",
         StoryToolCall.locationIntro "Port Callow",
         StoryToolCall.themeIntro "redemption"] =
      { characters := [{ name := some "Aria", background := some "orphaned blacksmith" }],
        locations := ["Port Callow"],
        theme := some "redemption" } := by
  constructor
  · intro calls
    have h := runStoryToolCalls_eq_spec calls StoryData.empty
    simpa [StoryData.empty, specLastTheme] using h
  · rfl

/-- C2: both handoff tools construct the specialist with exactly the
session's conversation history at the moment of the handoff: the same
ordered list of turns, nothing added, dropped, duplicated or reordered. -/
theorem handoff_preserves_chat_history :
    ∀ sessionChat : List String,
      (detected_childrens_book sessionChat).1.chatCtx = some sessionChat ∧
      (detected_novel sessionChat).1.chatCtx = some sessionChat := by
  intro sessionChat
  exact ⟨rfl, rfl⟩

/-- C3: `story_finished` always begins with the interrupt and then the
non-interruptible final reply request; on the success path the reply
completion strictly precedes the single room deletion, and a room deletion
can only ever occur at position 3, after the completed reply. -/
theorem storyFinished_ordering :
    ∀ (room : String) (replyOk : Bool),
      (storyFinishedTrace room replyOk).take 2 =
        [HostAction.interrupt,
         HostAction.generateReply (some feedbackInstructions) false] ∧
      (replyOk = true →
        storyFinishedTrace room replyOk =
          [HostAction.interrupt,
           HostAction.generateReply (some feedbackInstructions) false,
           HostAction.replyCompleted,
           HostAction.deleteRoom room]) ∧
      (∀ i, (storyFinishedTrace room replyOk).get? i = some (HostAction.deleteRoom room) →
        i = 3 ∧
          (storyFinishedTrace room replyOk).get? 2 = some HostAction.replyCompleted) := by
  intro room replyOk
  cases replyOk with
  | false =>
    refine ⟨rfl, by simp, ?_⟩
    intro i h
    exfalso
    match i with
    | 0 => simp [storyFinishedTrace] at h
    | 1 => simp [storyFinishedTrace] at h
    | n + 2 => simp [storyFinishedTrace] at h
  | true =>
    refine ⟨rfl, fun _ => rfl, ?_⟩
    intro i h
    match i with
    | 0 => simp [storyFinishedTrace] at h
    | 1 => simp [storyFinishedTrace] at h
    | 2 => simp [storyFinishedTrace] at h
    | 3 => exact ⟨rfl, rfl⟩
    | n + 4 => simp [storyFinishedTrace] at h

/-- Witness for C3 at a concrete room with a successful final reply. -/
theorem storyFinished_ordering_witness :
    (storyFinishedTrace "room-1" true).take 2 =
      [HostAction.interrupt,
       HostAction.generateReply (some feedbackInstructions) false] ∧
    storyFinishedTrace "room-1" true =
      [HostAction.interrupt,
       HostAction.generateReply (some feedbackInstructions) false,
       HostAction.replyCompleted,
       HostAction.deleteRoom "room-1"] ∧
    (3 = 3 ∧ (storyFinishedTrace "room-1" true).get? 2 = some HostAction.replyCompleted) :=
  ⟨(storyFinished_ordering "room-1" true).1,
   (storyFinished_ordering "room-1" true).2.1 rfl,
   (storyFinished_ordering "room-1" true).2.2 3 rfl⟩

/-- C4 (code bug evaluation): concrete runs of `web_search` on each failure
path.  The missing-credential and non-200 failures are surfaced with the
generic unexpected-failure message wrapped around the specific one, because
the `ToolError` raised inside the `try` body is caught by the trailing
`except Exception` handler; only the timeout and generic paths surface the
failure kind the claim states.  The final Boolean checks record that the
surfaced messages differ from the specific ones the claim requires. -/
theorem webSearch_failure_kinds_run :
    web_search "最新ニュース" none (NetOutcome.response 200 []) =
      Except.error (unexpectedErrorIntro ++ missingKeyMsg) ∧
    web_search "最新ニュース" (some "key-1") (NetOutcome.response 500 []) =
      Except.error (unexpectedErrorIntro ++ upstreamStatusMsg 500) ∧
    web_search "最新ニュース" (some "key-1") NetOutcome.timeout =
      Except.error timeoutMsg ∧
    web_search "最新ニュース" (some "key-1") (NetOutcome.raised "connection reset") =
      Except.error (unexpectedErrorIntro ++ "connection reset") ∧
    ((unexpectedErrorIntro ++ missingKeyMsg) == missingKeyMsg) = false ∧
    ((unexpectedErrorIntro ++ upstreamStatusMsg 500) == upstreamStatusMsg 500) = false := by
  refine ⟨rfl, rfl, rfl, rfl, by decide, by decide⟩

/-- C5: `detected_novel` returns the specialist constructed with specialty
"novels" (the label baked into its instructions), the conversation history
passed through with unchanged length, and a non-empty announcement. -/
theorem detectedNovel_handoff_shape :
    ∀ sessionChat : List String,
      (detected_novel sessionChat).1 = mkSpecialistEditorAgent "novels" (some sessionChat) ∧
      (detected_novel sessionChat).1.instructions = specialistInstructions "novels" ∧
      (detected_novel sessionChat).1.chatCtx = some sessionChat ∧
      ((detected_novel sessionChat).1.chatCtx.getD []).length = sessionChat.length ∧
      0 < (detected_novel sessionChat).2.length := by
  intro sessionChat
  refine ⟨rfl, rfl, rfl, rfl, ?_⟩
  show 0 < switchAnnouncement.length
  decide

/-- C6: the handoff transition leaves the shared story context unchanged,
and each specialist story-mutation tool has exactly the effect of the
lead's tool of the same name on the shared context — the observational
content of passing the one `StoryData` instance by reference. -/
theorem storyContext_shared_by_reference :
    ∀ (story : StoryData) (env : WebEnv) (replyOk : Bool) (n b l t : String),
      (runLeadTool story env LeadToolCall.detectedChildrensBook).1 = story ∧
      (runLeadTool story env LeadToolCall.detectedNovel).1 = story ∧
      (runSpecialistTool story env replyOk (SpecialistToolCall.characterIntroduction n b)).1 =
        (runLeadTool story env (LeadToolCall.characterIntroduction n b)).1 ∧
      (runSpecialistTool story env replyOk (SpecialistToolCall.locationIntroduction l)).1 =
        (runLeadTool story env (LeadToolCall.locationIntroduction l)).1 ∧
      (runSpecialistTool story env replyOk (SpecialistToolCall.themeIntroduction t)).1 =
        (runLeadTool story env (LeadToolCall.themeIntroduction t)).1 := by
  intro story env replyOk n b l t
  exact ⟨rfl, rfl, rfl, rfl, rfl⟩

/-- C7: whenever a `web_search` invocation fails, the shared story context
is returned unchanged, the outcome is exactly one surfaced failure carrying
that message, and the active agent is unchanged by that outcome — for the
lead's and the specialist's copy of the tool alike. -/
theorem webSearch_failure_frame :
    ∀ (story : StoryData) (env : WebEnv) (replyOk : Bool) (q m : String) (a : ActiveAgent),
      web_search q env.braveApiKey env.net = Except.error m →
      runLeadTool story env (LeadToolCall.webSearch q) = (story, ToolOutcome.failed m) ∧
      runSpecialistTool story env replyOk (SpecialistToolCall.webSearch q) =
        (story, ToolOutcome.failed m) ∧
      agentAfter a (ToolOutcome.failed m) = a := by
  intro story env replyOk q m a h
  refine ⟨?_, ?_, rfl⟩ <;> simp [runLeadTool, runSpecialistTool, h]

/-- Witness for C7: the missing-credential failure on the empty story. -/
theorem webSearch_failure_frame_witness :
    runLeadTool StoryData.empty ⟨none, NetOutcome.response 200 []⟩
        (LeadToolCall.webSearch "天気") =
      (StoryData.empty, ToolOutcome.failed (unexpectedErrorIntro ++ missingKeyMsg)) ∧
    runSpecialistTool StoryData.empty ⟨none, NetOutcome.response 200 []⟩ true
        (SpecialistToolCall.webSearch "天気") =
      (StoryData.empty, ToolOutcome.failed (unexpectedErrorIntro ++ missingKeyMsg)) ∧
    agentAfter ActiveAgent.leadEditor
        (ToolOutcome.failed (unexpectedErrorIntro ++ missingKeyMsg)) =
      ActiveAgent.leadEditor :=
  webSearch_failure_frame StoryData.empty ⟨none, NetOutcome.response 200 []⟩ true "天気"
    (unexpectedErrorIntro ++ missingKeyMsg) ActiveAgent.leadEditor rfl

/-- C8: when the final reply generation fails inside `story_finished`, the
trace stops after the single reply attempt: no room deletion is issued and
the reply generation is attempted exactly once (no retry). -/
theorem storyFinished_failure_skips_teardown :
    ∀ room : String,
      storyFinishedTrace room false =
        [HostAction.interrupt,
         HostAction.generateReply (some feedbackInstructions) false] ∧
      (storyFinishedTrace room false).filter isDeleteRoomAct = [] ∧
      (storyFinishedTrace room false).countP isGenerateReplyAct = 1 := by
  intro room
  exact ⟨rfl, rfl, rfl⟩

lemma runLeadTool_handoff_inv (story : StoryData) (env : WebEnv) (t : LeadToolCall)
    (a : ActiveAgent) (m : String)
    (h : (runLeadTool story env t).2 = ToolOutcome.handoff a m) :
    t = LeadToolCall.detectedChildrensBook ∨ t = LeadToolCall.detectedNovel := by
  cases t with
  | characterIntroduction n b => exact absurd h (by simp [runLeadTool])
  | locationIntroduction l => exact absurd h (by simp [runLeadTool])
  | themeIntroduction th => exact absurd h (by simp [runLeadTool])
  | webSearch q =>
    exfalso
    cases hw : web_search q env.braveApiKey env.net <;> simp [runLeadTool, hw] at h
  | detectedChildrensBook => exact Or.inl rfl
  | detectedNovel => exact Or.inr rfl

lemma runLeadTool_agentAfter_handoff (story : StoryData) (env : WebEnv) (t : LeadToolCall)
    (h : agentAfter ActiveAgent.leadEditor (runLeadTool story env t).2 ≠ ActiveAgent.leadEditor) :
    t = LeadToolCall.detectedChildrensBook ∨ t = LeadToolCall.detectedNovel := by
  cases hout : (runLeadTool story env t).2 with
  | handoff a m => exact runLeadTool_handoff_inv story env t a m hout
  | unit => exact absurd (by rw [hout]; rfl) h
  | text s => exact absurd (by rw [hout]; rfl) h
  | failed m => exact absurd (by rw [hout]; rfl) h
  | sessionEnd => exact absurd (by rw [hout]; rfl) h
  | hostFailure => exact absurd (by rw [hout]; rfl) h

lemma runSpecialistTool_agentAfter (story : StoryData) (env : WebEnv) (replyOk : Bool)
    (s : String) (t : SpecialistToolCall) :
    agentAfter (ActiveAgent.specialistEditor s) (runSpecialistTool story env replyOk t).2 =
      ActiveAgent.specialistEditor s := by
  cases t with
  | characterIntroduction n b => rfl
  | locationIntroduction l => rfl
  | themeIntroduction th => rfl
  | webSearch q =>
    cases hw : web_search q env.braveApiKey env.net <;>
      simp [runSpecialistTool, hw, agentAfter]
  | storyFinished => cases replyOk <;> rfl

lemma runLeadTool_not_sessionEnd (story : StoryData) (env : WebEnv) (t : LeadToolCall) :
    (runLeadTool story env t).2.isSessionEnd = false := by
  cases t with
  | characterIntroduction n b => rfl
  | locationIntroduction l => rfl
  | themeIntroduction th => rfl
  | webSearch q =>
    cases hw : web_search q env.braveApiKey env.net <;>
      simp [runLeadTool, hw, ToolOutcome.isSessionEnd]
  | detectedChildrensBook => rfl
  | detectedNovel => rfl

lemma runSpecialistTool_sessionEnd_inv (story : StoryData) (env : WebEnv) (replyOk : Bool)
    (t : SpecialistToolCall)
    (h : (runSpecialistTool story env replyOk t).2.isSessionEnd = true) :
    t = SpecialistToolCall.storyFinished := by
  cases t with
  | characterIntroduction n b => exact absurd h (by simp [runSpecialistTool, ToolOutcome.isSessionEnd])
  | locationIntroduction l => exact absurd h (by simp [runSpecialistTool, ToolOutcome.isSessionEnd])
  | themeIntroduction th => exact absurd h (by simp [runSpecialistTool, ToolOutcome.isSessionEnd])
  | webSearch q =>
    exfalso
    cases hw : web_search q env.braveApiKey env.net <;>
      simp [runSpecialistTool, hw, ToolOutcome.isSessionEnd] at h
  | storyFinished => rfl

/-- C9: the handoff state machine is a one-way funnel.  (1) A step taken
while a specialist is active keeps that very specialist active: there is no
transition from a specialist back to the lead or to another specialist.
(2) If the lead is active after a step, it was active before: the lead
state is never re-entered.  (3) Any step that changes the active agent is a
lead step through `detected_childrens_book` or `detected_novel`.  (4) The
only step that ends the session is a specialist's `story_finished`. -/
theorem handoff_one_way_funnel :
    (∀ (env : WebEnv) (replyOk : Bool) (st st' : SessionState) (c : SessionCall) (s : String),
        sessionStep env replyOk st c = some st' →
        st.agent = ActiveAgent.specialistEditor s →
        st'.agent = ActiveAgent.specialistEditor s) ∧
    (∀ (env : WebEnv) (replyOk : Bool) (st st' : SessionState) (c : SessionCall),
        sessionStep env replyOk st c = some st' →
        st'.agent = ActiveAgent.leadEditor →
        st.agent = ActiveAgent.leadEditor) ∧
    (∀ (env : WebEnv) (replyOk : Bool) (st st' : SessionState) (c : SessionCall),
        sessionStep env replyOk st c = some st' →
        st'.agent ≠ st.agent →
        st.agent = ActiveAgent.leadEditor ∧
          (c = SessionCall.lead LeadToolCall.detectedChildrensBook ∨
           c = SessionCall.lead LeadToolCall.detectedNovel)) ∧
    (∀ (env : WebEnv) (replyOk : Bool) (st st' : SessionState) (c : SessionCall),
        sessionStep env replyOk st c = some st' →
        st'.ended = true →
        c = SessionCall.specialist SpecialistToolCall.storyFinished ∧
          ∃ s, st.agent = ActiveAgent.specialistEditor s) := by
  refine ⟨?_, ?_, ?_, ?_⟩
  · intro env replyOk st st' c s hstep hag
    obtain ⟨ag, story, ended⟩ := st
    simp only at hag
    subst hag
    cases ended with
    | true => simp [sessionStep] at hstep
    | false =>
      cases c with
      | lead t => simp [sessionStep] at hstep
      | specialist t =>
        simp only [sessionStep] at hstep
        rw [if_neg (by simp)] at hstep
        have h' := Option.some.inj hstep
        rw [← h']
        exact runSpecialistTool_agentAfter story env replyOk s t
  · intro env replyOk st st' c hstep hag
    obtain ⟨ag, story, ended⟩ := st
    cases ended with
    | true => simp [sessionStep] at hstep
    | false =>
      cases ag with
      | leadEditor => rfl
      | specialistEditor s =>
        exfalso
        cases c with
        | lead t => simp [sessionStep] at hstep
        | specialist t =>
          simp only [sessionStep] at hstep
          rw [if_neg (by simp)] at hstep
          have h' := Option.some.inj hstep
          rw [← h'] at hag
          rw [runSpecialistTool_agentAfter story env replyOk s t] at hag
          exact ActiveAgent.noConfusion hag
  · intro env replyOk st st' c hstep hne
    obtain ⟨ag, story, ended⟩ := st
    cases ended with
    | true => simp [sessionStep] at hstep
    | false =>
      cases ag with
      | leadEditor =>
        refine ⟨rfl, ?_⟩
        cases c with
        | specialist t => simp [sessionStep] at hstep
        | lead t =>
          simp only [sessionStep] at hstep
          rw [if_neg (by simp)] at hstep
          have h' := Option.some.inj hstep
          have hA : agentAfter ActiveAgent.leadEditor (runLeadTool story env t).2 ≠
              ActiveAgent.leadEditor := by
            intro hEq
            apply hne
            rw [← h']
            simpa using hEq
          rcases runLeadTool_agentAfter_handoff story env t hA with h1 | h1 <;>
            [exact Or.inl (by rw [h1]); exact Or.inr (by rw [h1])]
      | specialistEditor s =>
        exfalso
        cases c with
        | lead t => simp [sessionStep] at hstep
        | specialist t =>
          simp only [sessionStep] at hstep
          rw [if_neg (by simp)] at hstep
          have h' := Option.some.inj hstep
          apply hne
          rw [← h']
          exact runSpecialistTool_agentAfter story env replyOk s t
  · intro env replyOk st st' c hstep hend
    obtain ⟨ag, story, ended⟩ := st
    cases ended with
    | true => simp [sessionStep] at hstep
    | false =>
      cases ag with
      | leadEditor =>
        exfalso
        cases c with
        | specialist t => simp [sessionStep] at hstep
        | lead t =>
          simp only [sessionStep] at hstep
          rw [if_neg (by simp)] at hstep
          have h' := Option.some.inj hstep
          rw [← h'] at hend
          simp only at hend
          rw [runLeadTool_not_sessionEnd story env t] at hend
          exact Bool.noConfusion hend
      | specialistEditor s =>
        cases c with
        | lead t => simp [sessionStep] at hstep
        | specialist t =>
          simp only [sessionStep] at hstep
          rw [if_neg (by simp)] at hstep
          have h' := Option.some.inj hstep
          rw [← h'] at hend
          simp only at hend
          have ht := runSpecialistTool_sessionEnd_inv story env replyOk t hend
          exact ⟨by rw [ht], s, rfl⟩

/-- Witness for C9: each conjunct applied at a concrete step. -/
theorem handoff_one_way_funnel_witness :
    (SessionState.mk (ActiveAgent.specialistEditor "novels")
        (StoryData.mk [] [] (some "愛")) false).agent =
      ActiveAgent.specialistEditor "novels" ∧
    (SessionState.mk ActiveAgent.leadEditor StoryData.empty false).agent =
      ActiveAgent.leadEditor ∧
    ((SessionState.mk ActiveAgent.leadEditor StoryData.empty false).agent =
        ActiveAgent.leadEditor ∧
      (SessionCall.lead LeadToolCall.detectedNovel =
          SessionCall.lead LeadToolCall.detectedChildrensBook ∨
       SessionCall.lead LeadToolCall.detectedNovel =
          SessionCall.lead LeadToolCall.detectedNovel)) ∧
    (SessionCall.specialist SpecialistToolCall.storyFinished =
        SessionCall.specialist SpecialistToolCall.storyFinished ∧
      ∃ s, (SessionState.mk (ActiveAgent.specialistEditor "novels")
          StoryData.empty false).agent = ActiveAgent.specialistEditor s) := by
  refine ⟨?_, ?_, ?_, ?_⟩
  · exact handoff_one_way_funnel.1 ⟨none, NetOutcome.response 200 []⟩ true
      ⟨ActiveAgent.specialistEditor "novels", StoryData.empty, false⟩
      ⟨ActiveAgent.specialistEditor "novels", StoryData.mk [] [] (some "愛"), false⟩
      (SessionCall.specialist (SpecialistToolCall.themeIntroduction "愛")) "novels" rfl rfl
  · exact handoff_one_way_funnel.2.1 ⟨none, NetOutcome.response 200 []⟩ true
      ⟨ActiveAgent.leadEditor, StoryData.empty, false⟩
      ⟨ActiveAgent.leadEditor, StoryData.mk [] ["東京"] none, false⟩
      (SessionCall.lead (LeadToolCall.locationIntroduction "東京")) rfl rfl
  · exact handoff_one_way_funnel.2.2.1 ⟨none, NetOutcome.response 200 []⟩ true
      ⟨ActiveAgent.leadEditor, StoryData.empty, false⟩
      ⟨ActiveAgent.specialistEditor "novels", StoryData.empty, false⟩
      (SessionCall.lead LeadToolCall.detectedNovel) rfl (by decide)
  · exact handoff_one_way_funnel.2.2.2 ⟨none, NetOutcome.response 200 []⟩ true
      ⟨ActiveAgent.specialistEditor "novels", StoryData.empty, false⟩
      ⟨ActiveAgent.specialistEditor "novels", StoryData.empty, true⟩
      (SessionCall.specialist SpecialistToolCall.storyFinished) rfl rfl

/-- C10: both handoff tools surface the identical announcement — the
children\x27s-book wording — so the novels handoff also announces the
children\x27s book editor. -/
theorem handoff_announcement_identical :
    ∀ sessionChat : List String,
      (detected_novel sessionChat).2 =
        "Let\x27s switch to the children\x27s book editor." ∧
      (detected_childrens_book sessionChat).2 = (detected_novel sessionChat).2 := by
  intro sessionChat
  exact ⟨rfl, rfl⟩
